import Mathlib

/-!
Shallow embedding of the reconciliation core of the `synology-config`
repository (files `app/modules/reverse_proxy.py` and
`app/modules/inventory.py`), together with theorems settling the frozen
claims about its specification.

Conventions of the embedding:
* Python `None` becomes `Option.none`; a value read with `.get` that may be
  missing is an `Option`.
* Python truthiness tests on port values (`if port:`) are modelled by
  `truthyPort`, which maps both `None` and `0` to `none`.
* Network collaborators (the Synology rule store, the Portainer API) are
  passed in explicitly: a fetch outcome is a `FetchResult` value and the
  store is a function argument, so that "the collaborator was invoked" is
  an observable boolean in the result.
* Machine integers are `Nat`/`Int`; no arithmetic in the source overflows.
-/

/-- Python truthiness of an optional port number: `None` and `0` are falsy.
Returns the port as `some p` exactly when the Python test `if port:` passes. -/
def truthyPort : Option Nat → Option Nat
  | none => none
  | some p => if p = 0 then none else some p

/-- A port value as it appears in a JSON rule record: either a number or a
string (`reverse_proxy.py` tolerates both in `frontend.port`). -/
inductive PortVal where
  | int (n : Int)
  | str (s : String)
deriving DecidableEq

/-- Accumulating decimal parse of a digit list (`none` on the first
non-digit). -/
def parse_digits_aux (acc : Nat) : List Char → Option Nat
  | [] => some acc
  | c :: rest =>
      if c.isDigit then parse_digits_aux (acc * 10 + (c.toNat - '0'.toNat)) rest
      else none

/-- A non-empty all-digit character list parsed as a natural number. -/
def parse_digits : List Char → Option Nat
  | [] => none
  | c :: rest => parse_digits_aux 0 (c :: rest)

/-- Python `int(x)` on a port value: an `int` converts to itself, a string
parses as an optionally minus-prefixed decimal numeral, anything else fails
(`ValueError`, modelled as `none`; exotic accepted spellings such as
surrounding whitespace or underscores, which never occur in port records,
are not modelled). -/
def pyInt? : PortVal → Option Int
  | .int n => some n
  | .str s =>
      match s.toList with
      | [] => none
      | '-' :: rest => (parse_digits rest).map (fun n => -(n : Int))
      | cs => (parse_digits cs).map (fun n => (n : Int))

/-- Python `str(x)` on a port value. -/
def pyStr : PortVal → String
  | .int n => toString n
  | .str s => s

/-- The frontend of a reverse-proxy rule record (fields read by the code:
`fqdn` and `port`; the port may be serialized as string or number). -/
structure RuleFrontend where
  fqdn : String
  port : Option PortVal
deriving DecidableEq

/-- The backend of a reverse-proxy rule record (fields read by the code:
`fqdn` and `port`). -/
structure RuleBackend where
  fqdn : String
  port : Option Nat
deriving DecidableEq

/-- A reverse-proxy rule record as returned by the rule store
(`data.entries` of the `list` call). -/
structure Rule where
  id : Nat
  description : String
  frontend : RuleFrontend
  backend : RuleBackend
deriving DecidableEq

/-- One iteration of the loop in `domain_port_exists`
(`reverse_proxy.py:112-127`): skip rules with no frontend port; try the
integer comparison of both ports guarded by the domain test, and on a
conversion failure (`ValueError`/`TypeError`) fall back to string
comparison, again guarded by the domain test. -/
def rule_matches_domain_port (r : Rule) (domain : String) (port : PortVal) : Bool :=
  match r.frontend.port with
  | none => false
  | some ep =>
      match pyInt? ep, pyInt? port with
      | some a, some b => r.frontend.fqdn == domain && a == b
      | _, _ => r.frontend.fqdn == domain && pyStr ep == pyStr port

/-- `domain_port_exists` (`reverse_proxy.py:112-127`) over an explicit rule
list (the Python method reads the list through `list_rules`). -/
def domain_port_exists (rules : List Rule) (domain : String) (port : PortVal) : Bool :=
  rules.any (fun r => rule_matches_domain_port r domain port)

/-- The mutable fields of `SynologyReverseProxyManager` that `list_rules`
reads and writes. -/
structure MgrState where
  authenticated : Bool
  rules_cache : Option (List Rule)
  error_message : Option String
deriving DecidableEq

/-- Outcome of one POST to the rule store's `list` method: a successful JSON
response with entries, a response with `success: false`, or a raised
exception (caught by the code). -/
inductive FetchResult where
  | ok (entries : List Rule)
  | apiFail
  | exn (msg : String)
deriving DecidableEq

/-- Whether a fetch outcome is a failure (anything but a successful
response). -/
def fetchFails : FetchResult → Bool
  | .ok _ => false
  | .apiFail => true
  | .exn _ => true

/-- Result of `list_rules`: the updated manager state, the returned rule
list, and whether the collaborator was actually contacted. -/
structure ListRulesOut where
  state : MgrState
  result : List Rule
  fetched : Bool
deriving DecidableEq

/-- Python truthiness of `self.rules_cache`: `None` and the empty list are
falsy. -/
def cacheTruthy : Option (List Rule) → Bool
  | none => false
  | some l => !l.isEmpty

/-- `list_rules` (`reverse_proxy.py:68-100`). Returns `[]` without a fetch
when unauthenticated; returns the cache without a fetch when the cache is
truthy (non-empty) and `refresh` is false; otherwise performs the fetch:
on success the cache is overwritten with the entries (even an empty list),
on an unsuccessful response or an exception the error message is recorded
and `[]` is returned with the cache left unchanged. -/
def list_rules (st : MgrState) (fetch : FetchResult) (refresh : Bool) : ListRulesOut :=
  if !st.authenticated then ⟨st, [], false⟩
  else if cacheTruthy st.rules_cache && !refresh then ⟨st, st.rules_cache.getD [], false⟩
  else
    match fetch with
    | .ok entries => ⟨{ st with rules_cache := some entries }, entries, true⟩
    | .apiFail => ⟨{ st with error_message := some "Failed to list rules" }, [], true⟩
    | .exn m => ⟨{ st with error_message := some ("Error listing rules: " ++ m) }, [], true⟩

/-- `get_used_ports` (`reverse_proxy.py:145-155`): the set of truthy backend
ports of the rules, returned sorted (Python builds a `set` and sorts it;
here: `filterMap`, `dedup`, ascending `insertionSort` — on naturals the
ascending sorted arrangement of a multiset is unique, so this is the same
function as Python's `sorted`). -/
def get_used_ports (rules : List Rule) : List Nat :=
  List.insertionSort (fun a b => a ≤ b) ((rules.filterMap (fun r => truthyPort r.backend.port)).dedup)

/-- The loop `for port in range(start, start + fuel): if port not in used:
return port` — fuel-counted linear scan used by both port-suggestion
functions. -/
def find_unused (used : List Nat) : Nat → Nat → Option Nat
  | _, 0 => none
  | start, fuel + 1 => if used.contains start then find_unused used (start + 1) fuel else some start

/-- `suggest_next_port` (`reverse_proxy.py:157-164`): scan
`range(start_range, 65536)` for the first port not in `get_used_ports`.
The Python default for `start_range` is 8000. -/
def suggest_next_port (rules : List Rule) (start_range : Nat) : Option Nat :=
  find_unused (get_used_ports rules) start_range (65536 - start_range)

/-- A `name`/`value` header directive of a rule entry. -/
structure HeaderDirective where
  name : String
  value : String
deriving DecidableEq

/-- The `https` sub-object of a rule entry's frontend. -/
structure EntryHttps where
  hsts : Bool
deriving DecidableEq

/-- The frontend object of a rule entry submitted to the store's `create`
method (constant fields `acl: null`, `protocol: 1` omitted). -/
structure EntryFrontend where
  fqdn : String
  port : Nat
  https : EntryHttps
deriving DecidableEq

/-- The backend object of a rule entry submitted to `create` (constant
field `protocol: 0` omitted). -/
structure EntryBackend where
  fqdn : String
  port : Nat
deriving DecidableEq

/-- The rule entry built by `add_rule` (`reverse_proxy.py:173-200`);
constant timeout/protocol fields are omitted from the model. -/
structure RuleEntry where
  description : String
  frontend : EntryFrontend
  backend : EntryBackend
  customize_headers : List HeaderDirective
deriving DecidableEq

/-- The entry construction in `add_rule` (`reverse_proxy.py:173-200`),
including the two websocket upgrade headers when `websocket` is true. -/
def build_entry (description frontend_domain backend_host : String)
    (backend_port frontend_port : Nat) (hsts websocket : Bool) : RuleEntry :=
  { description := description
    frontend := { fqdn := frontend_domain, port := frontend_port, https := { hsts := hsts } }
    backend := { fqdn := backend_host, port := backend_port }
    customize_headers :=
      if websocket then
        [⟨"Upgrade", "$http_upgrade"⟩, ⟨"Connection", "$connection_upgrade"⟩]
      else [] }

/-- Response of the store's `create` endpoint: the `success` flag and the
optional `error.code`. -/
structure StoreResponse where
  success : Bool
  error_code : Option Nat
deriving DecidableEq

/-- Result of `add_rule`: the `(bool, message)` pair returned by the Python
method, plus two observables: whether the store's create endpoint was
invoked and whether the rule cache was invalidated. -/
structure AddRuleOut where
  ok : Bool
  message : String
  store_called : Bool
  cache_invalidated : Bool
deriving DecidableEq

/-- The Python f-string rendering of the optional error code
(`f"Error code: {error_code}"` prints `None` for a missing code). -/
def showErrorCode : Option Nat → String
  | none => "None"
  | some c => toString c

/-- The `if error_code == 4154 / elif error_code == 101 / else` cascade of
`add_rule` (`reverse_proxy.py:224-229`). -/
def classify_add_error (error_code : Option Nat) : String :=
  if error_code = some 4154 then
    "Domain may already exist, be invalid, or not under your Synology account"
  else if error_code = some 101 then "Invalid parameter format"
  else "Error code: " ++ showErrorCode error_code

/-- `add_rule` (`reverse_proxy.py:166-232`). The only check before the
store call is the authentication flag; the entry is then built and posted
to the create endpoint unconditionally, and the response is classified by
error code (4154, 101, other). The Python defaults are `frontend_port=443`,
`hsts=True`, `websocket=False`. -/
def add_rule (authenticated : Bool) (store : RuleEntry → StoreResponse)
    (description frontend_domain backend_host : String)
    (backend_port frontend_port : Nat) (hsts websocket : Bool) : AddRuleOut :=
  if !authenticated then ⟨false, "Not authenticated", false, false⟩
  else
    let resp := store (build_entry description frontend_domain backend_host backend_port frontend_port hsts websocket)
    if resp.success then ⟨true, "Rule added successfully", true, true⟩
    else ⟨false, classify_add_error resp.error_code, true, false⟩

/-- Substring test on character lists: Python's `needle in hay`. -/
def sub_list (needle : List Char) : List Char → Bool
  | [] => needle.isEmpty
  | c :: rest => needle.isPrefixOf (c :: rest) || sub_list needle rest

/-- Python's `needle in hay` on strings. -/
def str_contains (hay needle : String) : Bool :=
  sub_list needle.toList hay.toList

/-- Python `s.lower()`, character by character (the names and keywords the
code lowercases are ASCII). -/
def py_lower (s : String) : String := String.mk (s.toList.map Char.toLower)

/-- One entry of a container's `Ports` list; only `PublicPort` is read by
the code, and it may be absent (unpublished mapping). -/
structure PortMapping where
  public_port : Option Nat
deriving DecidableEq

/-- A raw container record from the inventory source, with exactly the
fields `_build_inventory` reads (`Names`, `Image`, `State`, `Labels`,
`Ports`). -/
structure Container where
  names : List String
  image : Option String
  state : Option String
  labels : List (String × String)
  ports : List PortMapping
deriving DecidableEq

/-- A `Service` info record as stored in `InfrastructureInventory.services`
(`inventory.py:206-217`). -/
structure Service where
  service_name : String
  container_name : String
  stack_dir : String
  image : String
  state : String
  ports : List Nat
  port : Option Nat
  needs_proxy : Bool
  labels : List (String × String)
  network_mode : String
deriving DecidableEq

/-- `_extract_ports` (`inventory.py:219-229`): keep the truthy `PublicPort`
values in order, then `sorted(...)` (an ascending sort; duplicates are
kept — Python's `sorted` does not deduplicate; on naturals the ascending
arrangement is unique, so `insertionSort` is the same function). -/
def extract_ports (c : Container) : List Nat :=
  List.insertionSort (fun a b => a ≤ b) (c.ports.filterMap (fun pm => truthyPort pm.public_port))

/-- `_get_proxy_port` (`inventory.py:231-244`): `None` on an empty port
list; `9000` when the container name contains "portainer"
(case-insensitively) and `9000` is among the ports; otherwise `ports[0]`. -/
def get_proxy_port (container_name : String) (ports : List Nat) : Option Nat :=
  if ports.isEmpty then none
  else if str_contains (py_lower container_name) "portainer" && ports.contains 9000 then some 9000
  else ports.head?

/-- The denylist of `_needs_reverse_proxy` (`inventory.py:249-253`). -/
def internal_keywords : List String :=
  ["database", "db", "postgres", "mysql", "mariadb", "mongo",
   "redis", "cache", "rabbitmq", "kafka", "zookeeper",
   "elasticsearch", "logstash"]

/-- `_needs_reverse_proxy` (`inventory.py:246-263`): false iff some
denylist keyword occurs in the lowercased service name or image. -/
def needs_reverse_proxy (service_name image : String) : Bool :=
  !(internal_keywords.any (fun kw =>
      str_contains (py_lower service_name) kw || str_contains (py_lower image) kw))

/-- Python `s.lstrip('/')`: drop every leading slash. -/
def lstrip_slash (s : String) : String :=
  String.mk (s.toList.dropWhile (fun c => c == '/'))

/-- Python `labels.get(key, dflt)` over the label map (keys are unique in a
Python dict, so first-match lookup is faithful). -/
def labelGet (labels : List (String × String)) (key dflt : String) : String :=
  match labels.lookup key with
  | some v => v
  | none => dflt

/-- The body of the `_build_inventory` loop (`inventory.py:172-217`) for
one container with the given (slash-stripped) name: the service info
record stored into `self.services`. -/
def build_service (c : Container) (container_name : String) : Service :=
  let image := c.image.getD "unknown"
  let service_name := labelGet c.labels "com.docker.compose.service" container_name
  let ports := extract_ports c
  { service_name := service_name
    container_name := container_name
    stack_dir := labelGet c.labels "com.docker.compose.project" "standalone"
    image := image
    state := c.state.getD "unknown"
    ports := ports
    port := get_proxy_port container_name ports
    needs_proxy := needs_reverse_proxy service_name image
    labels := c.labels
    network_mode := labelGet c.labels "com.docker.compose.network_mode" "default" }

/-- Python dict assignment `d[k] = v` on an insertion-ordered association
list: overwrite in place if the key exists, else append. -/
def dict_insert (m : List (String × Service)) (k : String) (v : Service) : List (String × Service) :=
  if m.any (fun p => p.1 == k) then
    m.map (fun p => if p.1 == k then (k, v) else p)
  else m ++ [(k, v)]

/-- `_build_inventory` (`inventory.py:170-217`): fold over the accumulated
container list, skipping containers with no names, upserting a service
record keyed by the slash-stripped first name. Note the Python method does
not clear `self.services` first. -/
def build_inventory (services : List (String × Service)) (containers : List Container) :
    List (String × Service) :=
  containers.foldl
    (fun acc c =>
      match c.names with
      | [] => acc
      | n :: _ =>
          let container_name := lstrip_slash n
          dict_insert acc container_name (build_service c container_name))
    services

/-- An endpoint record; only `Id` is read (`endpoint.get('Id')`). -/
structure Endpoint where
  id : Option Nat
deriving DecidableEq

/-- A stack record; the inventory only accumulates these (`EndpointId`
filtering happens inside the client). -/
structure Stack where
  endpoint_id : Option Nat
deriving DecidableEq

/-- The mutable fields of `InfrastructureInventory`
(`inventory.py:134-137`); `stacks_list` models `self.stacks` (renamed: `stacks`
is a reserved token here). -/
structure InvState where
  services : List (String × Service)
  endpoints : List Endpoint
  stacks_list : List Stack
  containers : List Container
deriving DecidableEq

/-- The Portainer client as `scan_stacks` observes it: an authentication
flag and the (already exception-recovered) results of the three GET
helpers, each of which returns `[]` on any error. -/
structure PClient where
  authenticated : Bool
  get_endpoints : List Endpoint
  get_stacks : Option Nat → List Stack
  get_containers : Option Nat → List Container

/-- `scan_stacks` (`inventory.py:147-168`): early return when not
authenticated; otherwise `self.endpoints` is overwritten with the fetched
endpoints while `self.stacks` and `self.containers` are **extended**
(`list.extend`) with the per-endpoint results, and `_build_inventory`
then rebuilds `self.services` from the full accumulated container list. -/
def scan_stacks (st : InvState) (client : PClient) : InvState :=
  if !client.authenticated then st
  else
    let st1 := client.get_endpoints.foldl
      (fun acc ep =>
        { acc with
          stacks_list := acc.stacks_list ++ client.get_stacks ep.id
          containers := acc.containers ++ client.get_containers ep.id })
      { st with endpoints := client.get_endpoints }
    { st1 with services := build_inventory st1.services st1.containers }

/-- `get_next_available_port` (`inventory.py:289-300`): the used-port set
of the current services (truthy ports only), then a scan of
`range(start, stop)` (`stop` exclusive; the Python defaults are
`start=8000, end=9000`). -/
def get_next_available_port (services : List (String × Service)) (start stop : Nat) : Option Nat :=
  find_unused ((services.filterMap (fun si => truthyPort si.2.port)).dedup) start (stop - start)

/-- An `in_sync` report entry (`reverse_proxy.py:332-336`). -/
structure InSyncEntry where
  service : String
  port : Nat
  domain : String
deriving DecidableEq

/-- A `missing_proxies` report entry (`reverse_proxy.py:326-330`). -/
structure MissingEntry where
  service : String
  port : Nat
  stack : String
deriving DecidableEq

/-- An `orphaned_proxies` report entry (`reverse_proxy.py:348-353`). -/
structure OrphanEntry where
  description : String
  domain : String
  port : Nat
  id : Nat
deriving DecidableEq

/-- The report dictionary of `generate_sync_report`
(`reverse_proxy.py:310-314`). -/
structure SyncReport where
  missing_proxies : List MissingEntry
  orphaned_proxies : List OrphanEntry
  in_sync : List InSyncEntry
deriving DecidableEq

/-- The `actual_by_port` dictionary (`reverse_proxy.py:303-307`) as a
lookup: the **last** rule in the list whose truthy backend port equals `p`
(later dict assignments overwrite earlier ones). -/
def actual_by_port (rules : List Rule) (p : Nat) : Option Rule :=
  rules.foldl
    (fun acc r =>
      match truthyPort r.backend.port with
      | some q => if q = p then some r else acc
      | none => acc)
    none

/-- The `known_ports` set (`reverse_proxy.py:339-343`): the truthy `port`
values of **all** inventory services (note: no `needs_proxy` filter in the
source). Membership-equivalent list model of the Python set. -/
def known_ports (services : List (String × Service)) : List Nat :=
  services.filterMap (fun si => truthyPort si.2.port)

/-- One service-loop iteration of `generate_sync_report`
(`reverse_proxy.py:317-330`), missing side: a `needs_proxy` service with a
truthy port whose port is not a key of `actual_by_port`. -/
def missing_entry? (rules : List Rule) (si : String × Service) : Option MissingEntry :=
  if si.2.needs_proxy then
    match truthyPort si.2.port with
    | some p =>
        match actual_by_port rules p with
        | none => some ⟨si.1, p, si.2.stack_dir⟩
        | some _ => none
    | none => none
  else none

/-- One service-loop iteration of `generate_sync_report`
(`reverse_proxy.py:317-336`), in-sync side: a `needs_proxy` service with a
truthy port that is a key of `actual_by_port`; the entry carries the
matched rule's frontend domain. -/
def in_sync_entry? (rules : List Rule) (si : String × Service) : Option InSyncEntry :=
  if si.2.needs_proxy then
    match truthyPort si.2.port with
    | some p =>
        match actual_by_port rules p with
        | some r => some ⟨si.1, p, r.frontend.fqdn⟩
        | none => none
    | none => none
  else none

/-- One rule-loop iteration of `generate_sync_report`
(`reverse_proxy.py:345-353`): a rule with a truthy backend port not in
`known_ports` becomes an orphan entry. -/
def orphan_entry? (services : List (String × Service)) (r : Rule) : Option OrphanEntry :=
  match truthyPort r.backend.port with
  | some p =>
      if (known_ports services).contains p then none
      else some ⟨r.description, r.frontend.fqdn, p, r.id⟩
  | none => none

/-- `generate_sync_report` (`reverse_proxy.py:298-355`) over explicit
inputs: the inventory service dict (as an insertion-ordered association
list — `main.py:590` passes `inventory.services`) and the force-refreshed
rule list. Each report list collects, in iteration order, the entries
appended by the corresponding loop branch. -/
def generate_sync_report (services : List (String × Service)) (rules : List Rule) : SyncReport :=
  { missing_proxies := services.filterMap (missing_entry? rules)
    orphaned_proxies := rules.filterMap (orphan_entry? services)
    in_sync := services.filterMap (in_sync_entry? rules) }

/-- Modelled from the spec (section 4.4 step 3): "the set of all
`proxyPort` values among services that need a proxy". This is the
comparison set the claims describe for orphan classification; the source's
`known_ports` has no `needs_proxy` filter, and the two are compared in the
theorems below. -/
def spec_needs_proxy_ports (services : List (String × Service)) : List Nat :=
  services.filterMap (fun si => if si.2.needs_proxy then truthyPort si.2.port else none)

/-! ### Helper lemmas about the reconciliation engine -/

theorem actual_by_port_foldl_eq_none (p : Nat) (l : List Rule) (acc : Option Rule) :
    (l.foldl
      (fun acc r =>
        match truthyPort r.backend.port with
        | some q => if q = p then some r else acc
        | none => acc)
      acc = none) ↔ (acc = none ∧ ∀ r ∈ l, truthyPort r.backend.port ≠ some p) := by
  induction l generalizing acc with
  | nil => simp
  | cons r t ih =>
      simp only [List.foldl_cons, List.mem_cons, ih]
      cases h : truthyPort r.backend.port with
      | none => simp [h]
      | some q =>
          by_cases hq : q = p
          · subst hq
            simp [h]
          · simp only [h, if_neg hq]
            constructor
            · rintro ⟨h1, h2⟩
              exact ⟨h1, fun x hx => by
                rcases hx with rfl | hx
                · simp [h, hq]
                · exact h2 x hx⟩
            · rintro ⟨h1, h2⟩
              exact ⟨h1, fun x hx => h2 x (Or.inr hx)⟩

theorem actual_by_port_eq_none_iff (rules : List Rule) (p : Nat) :
    actual_by_port rules p = none ↔ ∀ r ∈ rules, truthyPort r.backend.port ≠ some p := by
  unfold actual_by_port
  rw [actual_by_port_foldl_eq_none]
  simp

theorem actual_by_port_ne_none_iff (rules : List Rule) (p : Nat) :
    actual_by_port rules p ≠ none ↔ ∃ r ∈ rules, truthyPort r.backend.port = some p := by
  rw [Ne, actual_by_port_eq_none_iff]
  push_neg
  simp

theorem orphan_entry_eq_some_iff (services : List (String × Service)) (r : Rule) (e : OrphanEntry) :
    orphan_entry? services r = some e ↔
      ∃ p, truthyPort r.backend.port = some p ∧ p ∉ known_ports services ∧
        e = ⟨r.description, r.frontend.fqdn, p, r.id⟩ := by
  unfold orphan_entry?
  cases h : truthyPort r.backend.port with
  | none => simp
  | some q =>
      by_cases hq : (known_ports services).contains q
      · rw [List.elem_iff] at hq
        simp only [if_pos (List.elem_iff.mpr hq)]
        constructor
        · intro hc
          cases hc
        · rintro ⟨p, hp, hnot, _⟩
          cases hp
          exact absurd hq hnot
      · have hq' : q ∉ known_ports services := fun hmem => hq (List.elem_iff.mpr hmem)
        simp only [if_neg hq]
        constructor
        · rintro he
          cases he
          exact ⟨q, rfl, hq', rfl⟩
        · rintro ⟨p, hp, _, rfl⟩
          cases hp
          rfl

theorem mem_orphaned_iff (services : List (String × Service)) (rules : List Rule) (p : Nat) :
    (∃ e ∈ (generate_sync_report services rules).orphaned_proxies, e.port = p) ↔
      ((∃ r ∈ rules, truthyPort r.backend.port = some p) ∧ p ∉ known_ports services) := by
  unfold generate_sync_report
  simp only [List.mem_filterMap]
  constructor
  · rintro ⟨e, ⟨r, hr, he⟩, hport⟩
    rcases (orphan_entry_eq_some_iff services r e).mp he with ⟨q, hq, hnot, rfl⟩
    cases hport
    exact ⟨⟨r, hr, hq⟩, hnot⟩
  · rintro ⟨⟨r, hr, hq⟩, hnot⟩
    exact ⟨⟨r.description, r.frontend.fqdn, p, r.id⟩,
      ⟨r, hr, (orphan_entry_eq_some_iff services r _).mpr ⟨p, hq, hnot, rfl⟩⟩, rfl⟩

theorem in_sync_entry_eq_some_iff (rules : List Rule) (si : String × Service) (e : InSyncEntry) :
    in_sync_entry? rules si = some e ↔
      si.2.needs_proxy = true ∧ ∃ p r, truthyPort si.2.port = some p ∧
        actual_by_port rules p = some r ∧ e = ⟨si.1, p, r.frontend.fqdn⟩ := by
  unfold in_sync_entry?
  by_cases hn : si.2.needs_proxy
  · cases hp : truthyPort si.2.port with
    | none => simp [hn, hp]
    | some p =>
        cases ha : actual_by_port rules p with
        | none => simp [hn, hp, ha]
        | some r => simp [hn, hp, ha, eq_comm]
  · simp [hn]

theorem missing_entry_eq_some_iff (rules : List Rule) (si : String × Service) (e : MissingEntry) :
    missing_entry? rules si = some e ↔
      si.2.needs_proxy = true ∧ ∃ p, truthyPort si.2.port = some p ∧
        actual_by_port rules p = none ∧ e = ⟨si.1, p, si.2.stack_dir⟩ := by
  unfold missing_entry?
  by_cases hn : si.2.needs_proxy
  · cases hp : truthyPort si.2.port with
    | none => simp [hn, hp]
    | some p =>
        cases ha : actual_by_port rules p with
        | none => simp [hn, hp, ha, eq_comm]
        | some r => simp [hn, hp, ha]
  · simp [hn]

theorem nodup_keys_val_eq {l : List (String × Service)} (h : (l.map Prod.fst).Nodup)
    {k : String} {a b : Service} (ha : (k, a) ∈ l) (hb : (k, b) ∈ l) : a = b := by
  induction l with
  | nil => cases ha
  | cons x t ih =>
      obtain ⟨k1, v1⟩ := x
      rw [List.map_cons, List.nodup_cons] at h
      rcases List.mem_cons.mp ha with h1 | h1 <;> rcases List.mem_cons.mp hb with h2 | h2
      · rw [Prod.mk.injEq] at h1 h2
        rw [h1.2, h2.2]
      · rw [Prod.mk.injEq] at h1
        exact absurd (List.mem_map.mpr ⟨(k, b), h2, h1.1⟩) h.1
      · rw [Prod.mk.injEq] at h2
        exact absurd (List.mem_map.mpr ⟨(k, a), h1, h2.1⟩) h.1
      · exact ih h.2 h1 h2

/-! ### Concrete inputs used by counterexamples and witnesses -/

/-- A service info record with the given needs-proxy flag and proxy port
(remaining fields are arbitrary concrete values; `generate_sync_report`
reads only `needs_proxy`, `port` and `stack_dir`). -/
def mkService (sname : String) (needs : Bool) (p : Option Nat) : Service :=
  { service_name := sname, container_name := sname, stack_dir := "stack", image := "img",
    state := "running", ports := [], port := p, needs_proxy := needs, labels := [],
    network_mode := "default" }

/-- A rule record with the given identifiers and ports. -/
def mkRule (rid : Nat) (descr ffqdn : String) (fport : Option PortVal) (bfqdn : String)
    (bport : Option Nat) : Rule :=
  { id := rid, description := descr, frontend := { fqdn := ffqdn, port := fport },
    backend := { fqdn := bfqdn, port := bport } }

/-- One non-proxy-needing service on port 5432. -/
def services_c2 : List (String × Service) :=
  [("postgres-db", mkService "postgres-db" false (some 5432))]

/-- One rule whose backend port 5432 matches only that service. -/
def rules_c2 : List Rule :=
  [mkRule 1 "pg" "pg.example.com" (some (PortVal.int 443)) "nas" (some 5432)]

/-- C2 counterexample: with a single service that has `needsProxy = false`
and port 5432, and a single rule with backend port 5432, the set of
proxy-port values of proxy-needing services is empty (so the claim says the
rule is orphaned), yet the code produces no orphan entry, because its
`known_ports` set is computed over all services regardless of
`needs_proxy`. -/
theorem c2_counterexample :
    (∃ r ∈ rules_c2, truthyPort r.backend.port = some 5432) ∧
    5432 ∉ spec_needs_proxy_ports services_c2 ∧
    (generate_sync_report services_c2 rules_c2).orphaned_proxies = [] := by
  decide

/-- C2 (amended): in every `SyncReport`, a port `p` appears among the
orphaned entries iff some rule has truthy backend port `p` and `p` is not
among the truthy `port` values of **all** inventory services (the
`needs_proxy` flag of the matching service is irrelevant). -/
theorem c2_orphaned_rule_iff (services : List (String × Service)) (rules : List Rule) (p : Nat) :
    (∃ e ∈ (generate_sync_report services rules).orphaned_proxies, e.port = p) ↔
      ((∃ r ∈ rules, truthyPort r.backend.port = some p) ∧ p ∉ known_ports services) :=
  mem_orphaned_iff services rules p

/-- One non-proxy-needing service on port 6379. -/
def services_c3 : List (String × Service) :=
  [("redis-cache", mkService "redis-cache" false (some 6379))]

/-- One rule whose backend port 6379 matches only that service. -/
def rules_c3 : List Rule :=
  [mkRule 2 "redis" "redis.example.com" (some (PortVal.int 443)) "nas" (some 6379)]

/-- C3 counterexample: with one non-proxy-needing service on port 6379 and
one rule with backend port 6379, the report has no in-sync entry (so the
rule is matched by no in-sync service) and no orphan entry either — the
rule is absent from both sides, refuting the claimed rule partition. -/
theorem c3_counterexample :
    (∃ r ∈ rules_c3, truthyPort r.backend.port = some 6379) ∧
    (generate_sync_report services_c3 rules_c3).in_sync = [] ∧
    (generate_sync_report services_c3 rules_c3).orphaned_proxies = [] := by
  decide

/-- C3 (amended): in every `SyncReport`, (a) provided service keys are
distinct (they are keys of a Python dict), every service with
`needs_proxy = true` and a truthy port appears in exactly one of `in_sync`
and `missing_proxies`; and (b) for every truthy backend port of a rule,
exactly one of the following holds: the port occurs among the truthy ports
of the services (any service — when that service needs a proxy the rule is
matched by an in-sync service, but a match by a non-proxy-needing service
also keeps the rule out of the report), or the port appears among the
orphaned entries. Rules without a truthy backend port appear nowhere. -/
theorem c3_partition (services : List (String × Service)) (rules : List Rule) :
    ((services.map Prod.fst).Nodup →
      ∀ name info p, (name, info) ∈ services → info.needs_proxy = true →
        truthyPort info.port = some p →
        Xor' (∃ e ∈ (generate_sync_report services rules).in_sync, e.service = name)
          (∃ e ∈ (generate_sync_report services rules).missing_proxies, e.service = name)) ∧
    (∀ p, (∃ r ∈ rules, truthyPort r.backend.port = some p) →
      Xor' (p ∈ known_ports services)
        (∃ e ∈ (generate_sync_report services rules).orphaned_proxies, e.port = p)) := by
  constructor
  · intro hnd name info p hmem hn hp
    cases ha : actual_by_port rules p with
    | some r =>
        refine Or.inl ⟨⟨⟨name, p, r.frontend.fqdn⟩, ?_, rfl⟩, ?_⟩
        · simp only [generate_sync_report, List.mem_filterMap]
          exact ⟨(name, info), hmem,
            (in_sync_entry_eq_some_iff rules (name, info) _).mpr ⟨hn, p, r, hp, ha, rfl⟩⟩
        · rintro ⟨e, he, hes⟩
          simp only [generate_sync_report, List.mem_filterMap] at he
          rcases he with ⟨si, hsi, hme⟩
          rcases (missing_entry_eq_some_iff rules si e).mp hme with ⟨hn2, p2, hp2, ha2, rfl⟩
          have h1 : si.1 = name := hes
          have hmem2 : (name, si.2) ∈ services := by
            rw [← h1, Prod.mk.eta]
            exact hsi
          have hval : si.2 = info := nodup_keys_val_eq hnd hmem2 hmem
          rw [hval, hp] at hp2
          cases hp2
          rw [ha2] at ha
          cases ha
    | none =>
        refine Or.inr ⟨⟨⟨name, p, info.stack_dir⟩, ?_, rfl⟩, ?_⟩
        · simp only [generate_sync_report, List.mem_filterMap]
          exact ⟨(name, info), hmem,
            (missing_entry_eq_some_iff rules (name, info) _).mpr ⟨hn, p, hp, ha, rfl⟩⟩
        · rintro ⟨e, he, hes⟩
          simp only [generate_sync_report, List.mem_filterMap] at he
          rcases he with ⟨si, hsi, hie⟩
          rcases (in_sync_entry_eq_some_iff rules si e).mp hie with ⟨hn2, p2, r2, hp2, ha2, rfl⟩
          have h1 : si.1 = name := hes
          have hmem2 : (name, si.2) ∈ services := by
            rw [← h1, Prod.mk.eta]
            exact hsi
          have hval : si.2 = info := nodup_keys_val_eq hnd hmem2 hmem
          rw [hval, hp] at hp2
          cases hp2
          rw [ha2] at ha
          cases ha
  · intro p hex
    by_cases hk : p ∈ known_ports services
    · refine Or.inl ⟨hk, ?_⟩
      intro horph
      exact ((mem_orphaned_iff services rules p).mp horph).2 hk
    · exact Or.inr ⟨(mem_orphaned_iff services rules p).mpr ⟨hex, hk⟩, fun h => hk h⟩

/-- One proxy-needing service on port 6767 next to one rule with backend
port 6767: used to witness the partition theorem. -/
def services_c3w : List (String × Service) :=
  [("bazarr", mkService "bazarr" true (some 6767))]

/-- The rule matching the witness service. -/
def rules_c3w : List Rule :=
  [mkRule 3 "bazarr" "bazarr.example.com" (some (PortVal.int 443)) "nas" (some 6767)]

/-- Witness for the partition theorem: at the concrete bazarr input the
service lands in exactly one of in-sync/missing, and the rule's port lands
in exactly one of known/orphaned. -/
theorem c3_partition_witness :
    Xor' (∃ e ∈ (generate_sync_report services_c3w rules_c3w).in_sync, e.service = "bazarr")
      (∃ e ∈ (generate_sync_report services_c3w rules_c3w).missing_proxies,
        e.service = "bazarr") ∧
    Xor' (6767 ∈ known_ports services_c3w)
      (∃ e ∈ (generate_sync_report services_c3w rules_c3w).orphaned_proxies, e.port = 6767) := by
  constructor
  · exact (c3_partition services_c3w rules_c3w).1 (by decide) "bazarr"
      (mkService "bazarr" true (some 6767)) 6767 (by decide) (by decide) (by decide)
  · exact (c3_partition services_c3w rules_c3w).2 6767 (by decide)

/-- A rule store stub that accepts every create request. -/
def store_accepts : RuleEntry → StoreResponse := fun _ => ⟨true, none⟩

/-- A rule whose frontend pair is `("a.example.com", 443)`. -/
def rules_c1 : List Rule :=
  [mkRule 4 "a" "a.example.com" (some (PortVal.int 443)) "nas" (some 8080)]

/-- C1 counterexample: while a rule with frontend pair
`("a.example.com", 443)` exists, `add_rule` for the same pair still invokes
the store's create endpoint and, with an accepting store, returns success —
and a call with empty description/domain/host also reaches the store. The
claimed precondition checks do not exist in `add_rule`. -/
theorem c1_counterexample :
    domain_port_exists rules_c1 "a.example.com" (PortVal.int 443) = true ∧
    (add_rule true store_accepts "dup" "a.example.com" "nas" 8080 443 true false).store_called
      = true ∧
    (add_rule true store_accepts "dup" "a.example.com" "nas" 8080 443 true false).ok = true ∧
    (add_rule true store_accepts "" "" "" 8080 443 true false).store_called = true := by
  decide

/-- C1 (amended): `add_rule` checks only authentication before submission:
an unauthenticated call fails without contacting the store; an
authenticated call always invokes the store's create endpoint — regardless
of an existing `(frontendDomain, frontendPort)` pair or empty
`description`/`frontendDomain`/`backendHost` — and succeeds iff the store
reports success. Duplicate-pair and empty-field validation happens only in
the UI caller (`main.py:536-541`), before `add_rule` is invoked. -/
theorem c1_add_rule_behavior (store : RuleEntry → StoreResponse)
    (description frontend_domain backend_host : String)
    (backend_port frontend_port : Nat) (hsts websocket : Bool) :
    add_rule false store description frontend_domain backend_host backend_port frontend_port
        hsts websocket = ⟨false, "Not authenticated", false, false⟩ ∧
    (add_rule true store description frontend_domain backend_host backend_port frontend_port
        hsts websocket).store_called = true ∧
    (add_rule true store description frontend_domain backend_host backend_port frontend_port
        hsts websocket).ok
      = (store (build_entry description frontend_domain backend_host backend_port frontend_port
          hsts websocket)).success := by
  refine ⟨rfl, ?_, ?_⟩ <;>
    · unfold add_rule
      cases hs : (store (build_entry description frontend_domain backend_host backend_port
          frontend_port hsts websocket)).success <;> simp [hs]

/-- A concrete cached rule. -/
def rule_c4 : Rule :=
  mkRule 5 "cached" "c.example.com" (some (PortVal.int 443)) "nas" (some 8081)

/-- An authenticated manager state with a non-empty rule cache. -/
def st_c4 : MgrState := ⟨true, some [rule_c4], none⟩

/-- C4 counterexample: with a non-empty previous cache, a failing
collaborator call (here a `success: false` response during a forced
refresh) makes `list_rules` return the empty list, not the previous cache
— refuting "returns the previous cache if one exists". -/
theorem c4_counterexample :
    st_c4.rules_cache = some [rule_c4] ∧ ([rule_c4] ≠ ([] : List Rule)) ∧
    (list_rules st_c4 FetchResult.apiFail true).fetched = true ∧
    (list_rules st_c4 FetchResult.apiFail true).result = [] := by
  decide

/-- C4 (amended): with `forceRefresh = false`, an authenticated manager
returns a **non-empty** cache unchanged with no collaborator call; when a
fetch is attempted and the collaborator call fails (error response or
exception), `list_rules` returns the empty sequence — the previous cache
is retained internally but not returned — and records an error message
(the exception is caught, never re-raised: the embedding is total on
`FetchResult.exn`). -/
theorem c4_list_rules_behavior (st : MgrState) (fetch : FetchResult) (refresh : Bool)
    (c : List Rule) :
    (st.authenticated = true → st.rules_cache = some c → c ≠ [] →
      list_rules st fetch false = ⟨st, c, false⟩) ∧
    (st.authenticated = true → (refresh = true ∨ cacheTruthy st.rules_cache = false) →
      fetchFails fetch = true →
      (list_rules st fetch refresh).result = [] ∧
      (list_rules st fetch refresh).state.rules_cache = st.rules_cache ∧
      (list_rules st fetch refresh).state.error_message ≠ none) := by
  constructor
  · intro hauth hc hne
    have hemp : c.isEmpty = false := by
      cases c with
      | nil => cases hne rfl
      | cons a l => rfl
    simp [list_rules, hauth, hc, cacheTruthy, hemp]
  · intro hauth hor hfail
    have hcond : (cacheTruthy st.rules_cache && !refresh) = false := by
      rcases hor with h | h
      · rw [h]
        simp
      · rw [h]
        simp
    cases fetch with
    | ok entries => cases hfail
    | apiFail => simp [list_rules, hauth, hcond]
    | exn m => simp [list_rules, hauth, hcond]

/-- Witness for the amended C4 theorem: the non-empty cache is returned
without a fetch, and a failing fetch on an empty-cached state returns
`[]`. -/
theorem c4_witness :
    list_rules st_c4 FetchResult.apiFail false = ⟨st_c4, [rule_c4], false⟩ ∧
    (list_rules ⟨true, none, none⟩ FetchResult.apiFail false).result = [] := by
  constructor
  · exact (c4_list_rules_behavior st_c4 FetchResult.apiFail false [rule_c4]).1 rfl rfl
      (by decide)
  · exact ((c4_list_rules_behavior ⟨true, none, none⟩ FetchResult.apiFail false []).2 rfl
      (Or.inr rfl) rfl).1

/-- A concrete rule for the C10 witness. -/
def rule_c10 : Rule :=
  mkRule 6 "fresh" "f.example.com" (some (PortVal.int 443)) "nas" (some 8082)

/-- C10: a successful fetch that returns zero rules stores `some []` in the
cache, but the empty cache is falsy, so every later call — even with
`refresh = false` — fetches again; only a non-empty cache is ever returned
without a fetch (the no-fetch cases are exactly: unauthenticated, which
returns `[]`, and a truthy cache with `refresh = false`). -/
theorem c10_empty_cache_refetch (st : MgrState) (fetch : FetchResult) (refresh : Bool)
    (c : List Rule) :
    (st.authenticated = true → (refresh = true ∨ cacheTruthy st.rules_cache = false) →
      (list_rules st (FetchResult.ok []) refresh).state.rules_cache = some []) ∧
    (st.authenticated = true → st.rules_cache = some [] →
      (list_rules st fetch false).fetched = true) ∧
    (st.authenticated = true → st.rules_cache = some c → c ≠ [] →
      (list_rules st fetch false).fetched = false ∧ (list_rules st fetch false).result = c) ∧
    ((list_rules st fetch refresh).fetched = false →
      (st.authenticated = false ∧ (list_rules st fetch refresh).result = []) ∨
      (∃ d, st.rules_cache = some d ∧ d ≠ [] ∧ (list_rules st fetch refresh).result = d)) := by
  refine ⟨?_, ?_, ?_, ?_⟩
  · intro hauth hor
    have hcond : (cacheTruthy st.rules_cache && !refresh) = false := by
      rcases hor with h | h
      · rw [h]
        simp
      · rw [h]
        simp
    simp [list_rules, hauth, hcond]
  · intro hauth hc
    simp [list_rules, hauth, hc, cacheTruthy]
    cases fetch <;> simp
  · intro hauth hc hne
    have hemp : c.isEmpty = false := by
      cases c with
      | nil => cases hne rfl
      | cons a l => rfl
    simp [list_rules, hauth, hc, cacheTruthy, hemp]
  · intro hfetch
    by_cases hauth : st.authenticated
    · right
      by_cases hcache : cacheTruthy st.rules_cache && !refresh
      · cases hc : st.rules_cache with
        | none =>
            rw [hc] at hcache
            simp [cacheTruthy] at hcache
        | some d =>
            refine ⟨d, rfl, ?_, ?_⟩
            · intro hd
              rw [hc, hd] at hcache
              simp [cacheTruthy] at hcache
            · simp [list_rules, hauth, hc, hcache, cacheTruthy]
              rw [hc] at hcache
              simp [cacheTruthy] at hcache ⊢
              simp [hcache]
      · exfalso
        have : (list_rules st fetch refresh).fetched = true := by
          simp only [list_rules, hauth]
          simp only [Bool.not_true, Bool.false_eq_true, if_false]
          rw [if_neg (by simp [hcache])]
          cases fetch <;> rfl
        rw [this] at hfetch
        cases hfetch
    · left
      have hauth2 : st.authenticated = false := by
        cases h : st.authenticated
        · rfl
        · exact absurd h hauth
      exact ⟨hauth2, by simp [list_rules, hauth2]⟩

/-- Witness for the C10 theorem: a state with a cached empty list fetches
again even with `refresh = false`, and a successful empty fetch caches
`some []`. -/
theorem c10_witness :
    (list_rules ⟨true, some [], none⟩ (FetchResult.ok [rule_c10]) false).fetched = true ∧
    (list_rules ⟨true, none, none⟩ (FetchResult.ok []) true).state.rules_cache = some [] := by
  constructor
  · exact (c10_empty_cache_refetch ⟨true, some [], none⟩ (FetchResult.ok [rule_c10])
      false []).2.1 rfl rfl
  · exact (c10_empty_cache_refetch ⟨true, none, none⟩ (FetchResult.ok []) true []).1 rfl
      (Or.inl rfl)

/-- A container named `/alpha` publishing port 8100. -/
def container_alpha : Container :=
  { names := ["/alpha"], image := some "alpha-img", state := some "running",
    labels := [], ports := [⟨some 8100⟩] }

/-- A container named `/beta` publishing port 8200. -/
def container_beta : Container :=
  { names := ["/beta"], image := some "beta-img", state := some "running",
    labels := [], ports := [⟨some 8200⟩] }

/-- A healthy client whose single endpoint currently runs only `/alpha`. -/
def client_alpha : PClient :=
  { authenticated := true, get_endpoints := [⟨some 1⟩],
    get_stacks := fun _ => [], get_containers := fun _ => [container_alpha] }

/-- The same endpoint at a later scan: `/alpha` is gone, only `/beta`
runs. -/
def client_beta : PClient :=
  { authenticated := true, get_endpoints := [⟨some 1⟩],
    get_stacks := fun _ => [], get_containers := fun _ => [container_beta] }

/-- The freshly constructed inventory state (`inventory.py:134-137`). -/
def inv0 : InvState := { services := [], endpoints := [], stacks_list := [], containers := [] }

/-- An unauthenticated client (failed Portainer login). -/
def client_down : PClient :=
  { authenticated := false, get_endpoints := [],
    get_stacks := fun _ => [], get_containers := fun _ => [] }

/-- C5: evaluation of the code at the failing input. After a first scan
that saw only `/alpha` and a second scan whose fresh fetch returned only
`/beta`, the accumulated container list still holds `/alpha`
(`self.containers.extend`, never cleared) and the rebuilt service set
still contains the stale `alpha` service next to `beta` — the Service set
is **not** replaced wholesale from only the freshly fetched records. The
failure half of the claim does hold: an unauthenticated client leaves the
state untouched. -/
theorem c5_scan_accumulates :
    (scan_stacks (scan_stacks inv0 client_alpha) client_beta).containers
      = [container_alpha, container_beta] ∧
    (scan_stacks (scan_stacks inv0 client_alpha) client_beta).services.map Prod.fst
      = ["alpha", "beta"] ∧
    scan_stacks (scan_stacks inv0 client_alpha) client_down
      = scan_stacks inv0 client_alpha := by
  refine ⟨by decide, by decide, by decide⟩

theorem rule_matches_domain_port_iff (r : Rule) (domain : String) (port : PortVal) :
    rule_matches_domain_port r domain port = true ↔
      ∃ ep, r.frontend.port = some ep ∧ r.frontend.fqdn = domain ∧
        ((∃ a b, pyInt? ep = some a ∧ pyInt? port = some b ∧ a = b) ∨
         ((pyInt? ep = none ∨ pyInt? port = none) ∧ pyStr ep = pyStr port)) := by
  unfold rule_matches_domain_port
  cases hfp : r.frontend.port with
  | none => simp
  | some ep =>
      cases hei : pyInt? ep with
      | some a =>
          cases hqi : pyInt? port with
          | some b => simp [hei, hqi]
          | none => simp [hei, hqi]
      | none =>
          cases hqi : pyInt? port with
          | some b => simp [hei, hqi]
          | none => simp [hei, hqi]

/-- A single rule whose frontend port is the string `"443"`. -/
def rules_c6s : List Rule :=
  [mkRule 7 "a" "a.example.com" (some (PortVal.str "443")) "nas" (some 8080)]

/-- A single rule whose frontend port is the integer `443`. -/
def rules_c6i : List Rule :=
  [mkRule 8 "a" "a.example.com" (some (PortVal.int 443)) "nas" (some 8080)]

/-- C6: `domain_port_exists rules domain port` is true iff some rule has
that frontend domain and a frontend port that equals `port` — as integers
when both sides parse as integers, by exact string equality otherwise.
In particular, a query for integer `443` matches a rule whether its stored
port is the string `"443"` or the integer `443`, and a query for `444`
matches neither. -/
theorem c6_domain_port_exists_spec (rules : List Rule) (domain : String) (port : PortVal) :
    (domain_port_exists rules domain port = true ↔
      ∃ r ∈ rules, ∃ ep, r.frontend.port = some ep ∧ r.frontend.fqdn = domain ∧
        ((∃ a b, pyInt? ep = some a ∧ pyInt? port = some b ∧ a = b) ∨
         ((pyInt? ep = none ∨ pyInt? port = none) ∧ pyStr ep = pyStr port))) ∧
    domain_port_exists rules_c6s "a.example.com" (PortVal.int 443) = true ∧
    domain_port_exists rules_c6i "a.example.com" (PortVal.int 443) = true ∧
    domain_port_exists rules_c6s "a.example.com" (PortVal.int 444) = false ∧
    domain_port_exists rules_c6i "a.example.com" (PortVal.int 444) = false := by
  refine ⟨?_, by decide, by decide, by decide, by decide⟩
  rw [domain_port_exists, List.any_eq_true]
  constructor
  · rintro ⟨r, hr, hm⟩
    exact ⟨r, hr, (rule_matches_domain_port_iff r domain port).mp hm⟩
  · rintro ⟨r, hr, hm⟩
    exact ⟨r, hr, (rule_matches_domain_port_iff r domain port).mpr hm⟩

theorem truthyPort_eq_some_iff (o : Option Nat) (p : Nat) :
    truthyPort o = some p ↔ o = some p ∧ p ≠ 0 := by
  cases o with
  | none => simp [truthyPort]
  | some q =>
      simp only [truthyPort, Option.some.injEq]
      by_cases hq : q = 0
      · subst hq
        rw [if_pos rfl]
        constructor
        · intro h
          cases h
        · rintro ⟨h, hne⟩
          exact absurd h.symm hne
      · rw [if_neg hq]
        simp only [Option.some.injEq]
        constructor
        · rintro rfl
          exact ⟨rfl, hq⟩
        · rintro ⟨h, _⟩
          exact h

theorem extract_ports_sorted (c : Container) : List.Sorted (· ≤ ·) (extract_ports c) :=
  List.sorted_insertionSort (fun a b => a ≤ b) _

theorem extract_ports_perm (c : Container) :
    (extract_ports c).Perm (c.ports.filterMap (fun pm => truthyPort pm.public_port)) :=
  List.perm_insertionSort (fun a b => a ≤ b) _

theorem mem_extract_ports (c : Container) (p : Nat) :
    p ∈ extract_ports c ↔ ∃ pm ∈ c.ports, pm.public_port = some p ∧ p ≠ 0 := by
  unfold extract_ports
  rw [List.mem_insertionSort, List.mem_filterMap]
  constructor
  · rintro ⟨pm, hpm, h⟩
    rcases (truthyPort_eq_some_iff pm.public_port p).mp h with ⟨h1, h2⟩
    exact ⟨pm, hpm, h1, h2⟩
  · rintro ⟨pm, hpm, h1, h2⟩
    exact ⟨pm, hpm, (truthyPort_eq_some_iff pm.public_port p).mpr ⟨h1, h2⟩⟩

/-- A container that publishes public port 80 twice (e.g. one TCP and one
UDP mapping of the same published port). -/
def container_dup : Container :=
  { names := ["/dup"], image := none, state := none, labels := [],
    ports := [⟨some 80⟩, ⟨some 80⟩] }

/-- C9 counterexample: a container with two port mappings that share
`PublicPort = 80` yields `ports = [80, 80]` — sorted, but with a duplicate,
so the derived sequence is not strictly ascending and its elements are not
distinct (Python's `sorted` does not collapse duplicates). -/
theorem c9_counterexample :
    extract_ports container_dup = [80, 80] ∧ ¬ (extract_ports container_dup).Nodup := by
  decide

/-- C9 (amended): for every container the derived `ports` field is a
non-decreasing (ascending, duplicates retained) rearrangement of all its
truthy `PublicPort` values; zero and absent entries are skipped, and a
port is listed iff some mapping publishes it with a non-zero value (so the
list is empty when no port is published). -/
theorem c9_extract_ports_spec (c : Container) :
    List.Sorted (· ≤ ·) (extract_ports c) ∧
    (extract_ports c).Perm (c.ports.filterMap (fun pm => truthyPort pm.public_port)) ∧
    (∀ p, p ∈ extract_ports c ↔ ∃ pm ∈ c.ports, pm.public_port = some p ∧ p ≠ 0) :=
  ⟨extract_ports_sorted c, extract_ports_perm c, fun p => mem_extract_ports c p⟩

/-- C7: for every container (with `ports` derived by `_extract_ports` as in
`_build_inventory`), the proxy port is absent iff `ports` is empty; when
the container name contains "portainer" case-insensitively and `9000` is
among the ports, the proxy port is `9000`; otherwise it is the minimum of
`ports`; and whenever present it is an element of `ports`. -/
theorem c7_proxy_port_spec (container_name : String) (c : Container) :
    (get_proxy_port container_name (extract_ports c) = none ↔ extract_ports c = []) ∧
    (str_contains (py_lower container_name) "portainer" = true → 9000 ∈ extract_ports c →
      get_proxy_port container_name (extract_ports c) = some 9000) ∧
    (extract_ports c ≠ [] →
      (str_contains (py_lower container_name) "portainer" = false ∨ 9000 ∉ extract_ports c) →
      ∃ p, get_proxy_port container_name (extract_ports c) = some p ∧
        p ∈ extract_ports c ∧ ∀ q ∈ extract_ports c, p ≤ q) ∧
    (∀ p, get_proxy_port container_name (extract_ports c) = some p → p ∈ extract_ports c) := by
  have hsorted := extract_ports_sorted c
  cases hl : extract_ports c with
  | nil => simp [get_proxy_port, hl]
  | cons a t =>
      rw [hl] at hsorted
      rcases List.sorted_cons.mp hsorted with ⟨hmin, _⟩
      refine ⟨?_, ?_, ?_, ?_⟩
      · simp only [get_proxy_port, List.isEmpty_cons, Bool.false_eq_true, if_false]
        constructor
        · intro h
          by_cases hc : str_contains (py_lower container_name) "portainer"
              && (a :: t).contains 9000
          · rw [if_pos hc] at h
            cases h
          · rw [if_neg hc] at h
            cases h
        · intro h
          cases h
      · intro hsc hmem
        have hc : (str_contains (py_lower container_name) "portainer"
            && (a :: t).contains 9000) = true := by
          rw [hsc, Bool.true_and]
          exact List.elem_iff.mpr hmem
        simp only [get_proxy_port, List.isEmpty_cons, Bool.false_eq_true, if_false, if_pos hc]
      · intro _ hcond
        have hc : (str_contains (py_lower container_name) "portainer"
            && (a :: t).contains 9000) = false := by
          rcases hcond with h | h
          · rw [h, Bool.false_and]
          · cases hcc : (a :: t).contains 9000 with
            | false => rw [Bool.and_false]
            | true => exact absurd (List.elem_iff.mp hcc) h
        refine ⟨a, ?_, List.mem_cons_self a t, ?_⟩
        · simp only [get_proxy_port, List.isEmpty_cons, Bool.false_eq_true, if_false, hc,
            List.head?_cons]
        · intro q hq
          rcases List.mem_cons.mp hq with rfl | hq
          · exact le_rfl
          · exact hmin q hq
      · intro p hp
        simp only [get_proxy_port, List.isEmpty_cons, Bool.false_eq_true, if_false] at hp
        by_cases hc : str_contains (py_lower container_name) "portainer"
            && (a :: t).contains 9000
        · rw [if_pos hc] at hp
          cases hp
          exact List.elem_iff.mp (Bool.and_elim_right hc)
        · rw [if_neg hc] at hp
          rw [List.head?_cons] at hp
          cases hp
          exact List.mem_cons_self a t

/-- A portainer container publishing ports 8080 and 9000. -/
def container_portainer : Container :=
  { names := ["/portainer"], image := some "portainer/portainer-ce",
    state := some "running", labels := [], ports := [⟨some 8080⟩, ⟨some 9000⟩] }

/-- Witness for C7: the portainer container with ports `[8080, 9000]` gets
proxy port 9000, and the `alpha` container (no override) gets its minimum
port. -/
theorem c7_witness :
    get_proxy_port "portainer" (extract_ports container_portainer) = some 9000 ∧
    ∃ p, get_proxy_port "alpha" (extract_ports container_alpha) = some p ∧
      p ∈ extract_ports container_alpha ∧ ∀ q ∈ extract_ports container_alpha, p ≤ q := by
  constructor
  · exact (c7_proxy_port_spec "portainer" container_portainer).2.1 (by decide) (by decide)
  · exact (c7_proxy_port_spec "alpha" container_alpha).2.2.1 (by decide) (by decide)

theorem find_unused_eq_some_iff (used : List Nat) (s fuel q : Nat) :
    find_unused used s fuel = some q ↔
      (s ≤ q ∧ q < s + fuel ∧ q ∉ used ∧ ∀ r, s ≤ r → r < q → r ∈ used) := by
  induction fuel generalizing s with
  | zero =>
      simp only [find_unused]
      constructor
      · intro h
        cases h
      · rintro ⟨h1, h2, _⟩
        omega
  | succ fuel ih =>
      simp only [find_unused]
      by_cases hc : used.contains s
      · have hs : s ∈ used := List.elem_iff.mp hc
        rw [if_pos hc, ih (s + 1)]
        constructor
        · rintro ⟨h1, h2, h3, h4⟩
          refine ⟨by omega, by omega, h3, ?_⟩
          intro r hr1 hr2
          by_cases hrs : r = s
          · rw [hrs]
            exact hs
          · exact h4 r (by omega) hr2
        · rintro ⟨h1, h2, h3, h4⟩
          have hqs : q ≠ s := fun he => h3 (he ▸ hs)
          exact ⟨by omega, by omega, h3, fun r hr1 hr2 => h4 r (by omega) hr2⟩
      · have hs : s ∉ used := fun hmem => hc (List.elem_iff.mpr hmem)
        rw [if_neg hc]
        constructor
        · intro h
          cases h
          exact ⟨le_rfl, by omega, hs, fun r hr1 hr2 => absurd hr2 (by omega)⟩
        · rintro ⟨h1, h2, h3, h4⟩
          have hqs : q = s := by
            by_contra hne
            exact hs (h4 s le_rfl (by omega))
          rw [hqs]

theorem find_unused_eq_none_iff (used : List Nat) (s fuel : Nat) :
    find_unused used s fuel = none ↔ ∀ r, s ≤ r → r < s + fuel → r ∈ used := by
  induction fuel generalizing s with
  | zero =>
      simp only [find_unused]
      constructor
      · intro _ r h1 h2
        omega
      · intro _
        trivial
  | succ fuel ih =>
      simp only [find_unused]
      by_cases hc : used.contains s
      · have hs : s ∈ used := List.elem_iff.mp hc
        rw [if_pos hc, ih (s + 1)]
        constructor
        · intro h r hr1 hr2
          by_cases hrs : r = s
          · rw [hrs]
            exact hs
          · exact h r (by omega) (by omega)
        · intro h r hr1 hr2
          exact h r (by omega) (by omega)
      · have hs : s ∉ used := fun hmem => hc (List.elem_iff.mpr hmem)
        rw [if_neg hc]
        constructor
        · intro h
          cases h
        · intro h
          exact absurd (h s le_rfl (by omega)) hs

theorem mem_get_used_ports (rules : List Rule) (p : Nat) :
    p ∈ get_used_ports rules ↔ ∃ r ∈ rules, truthyPort r.backend.port = some p := by
  unfold get_used_ports
  rw [List.mem_insertionSort, List.mem_dedup, List.mem_filterMap]

theorem mem_service_used_ports (services : List (String × Service)) (p : Nat) :
    p ∈ (services.filterMap (fun si => truthyPort si.2.port)).dedup ↔
      ∃ si ∈ services, truthyPort si.2.port = some p := by
  rw [List.mem_dedup, List.mem_filterMap]

/-- Three rules whose truthy backend ports are 8000, 8001 and 8003. -/
def rules_c8 : List Rule :=
  [mkRule 9 "p0" "p0.example.com" none "nas" (some 8000),
   mkRule 10 "p1" "p1.example.com" none "nas" (some 8001),
   mkRule 11 "p3" "p3.example.com" none "nas" (some 8003)]

/-- C8: `suggest_next_port` returns the smallest port `≥ start` outside the
used-port set (`none` when every port up to the ceiling 65535 is used); the
used-port set is exactly the truthy backend ports of the rules; the
inventory variant `get_next_available_port` does the same over the service
ports with an exclusive upper bound; and the two quoted examples hold.
Determinism is definitional: both functions are pure functions of their
inputs (the loop keeps no state and draws no randomness). -/
theorem c8_suggest_next_port_spec (rules : List Rule) (services : List (String × Service))
    (start stop p : Nat) :
    (∀ q, suggest_next_port rules start = some q ↔
      (start ≤ q ∧ q ≤ 65535 ∧ q ∉ get_used_ports rules ∧
        ∀ r, start ≤ r → r < q → r ∈ get_used_ports rules)) ∧
    (suggest_next_port rules start = none ↔
      ∀ q, start ≤ q → q ≤ 65535 → q ∈ get_used_ports rules) ∧
    (p ∈ get_used_ports rules ↔ ∃ r ∈ rules, truthyPort r.backend.port = some p) ∧
    (∀ q, get_next_available_port services start stop = some q ↔
      (start ≤ q ∧ q < stop ∧ (∀ si ∈ services, truthyPort si.2.port ≠ some q) ∧
        ∀ r, start ≤ r → r < q → ∃ si ∈ services, truthyPort si.2.port = some r)) ∧
    suggest_next_port rules_c8 8000 = some 8002 ∧
    suggest_next_port ([] : List Rule) 8000 = some 8000 := by
  refine ⟨?_, ?_, mem_get_used_ports rules p, ?_, by decide, by decide⟩
  · intro q
    rw [suggest_next_port, find_unused_eq_some_iff]
    constructor
    · rintro ⟨h1, h2, h3, h4⟩
      exact ⟨h1, by omega, h3, h4⟩
    · rintro ⟨h1, h2, h3, h4⟩
      exact ⟨h1, by omega, h3, h4⟩
  · rw [suggest_next_port, find_unused_eq_none_iff]
    constructor
    · intro h q h1 h2
      exact h q h1 (by omega)
    · intro h r h1 h2
      exact h r h1 (by omega)
  · intro q
    rw [get_next_available_port, find_unused_eq_some_iff]
    constructor
    · rintro ⟨h1, h2, h3, h4⟩
      refine ⟨h1, by omega, ?_, ?_⟩
      · intro si hsi he
        exact h3 ((mem_service_used_ports services q).mpr ⟨si, hsi, he⟩)
      · intro r hr1 hr2
        exact (mem_service_used_ports services r).mp (h4 r hr1 hr2)
    · rintro ⟨h1, h2, h3, h4⟩
      refine ⟨h1, by omega, ?_, ?_⟩
      · intro hmem
        rcases (mem_service_used_ports services q).mp hmem with ⟨si, hsi, he⟩
        exact h3 si hsi he
      · intro r hr1 hr2
        exact (mem_service_used_ports services r).mpr (h4 r hr1 hr2)
